import Mathlib

/-!
Verification of the scandium header-only SQLite wrapper
(`src/include/scandium.h`) against its natural-language specification.

The wrapper is shallowly embedded: each C++ member function becomes a Lean
function over explicit state.  The native SQLite engine is the external
collaborator; its calls (`sqlite3_open_v2`, `sqlite3_step`, bind/column
accessors, ...) are modelled by small contract functions on explicit engine
state, exactly as the spec describes them as black-box contracts.

Error mapping:
  * `sqlite_error` (a native call returned a non-success code) becomes
    `err.sqliteError what rc`;
  * `std::logic_error` (the wrapper's "invalid state" usage errors) becomes
    `err.logicError what`;
  * an exception thrown by a host callback becomes `err.callbackException`;
  * dereferencing a null `std::shared_ptr` (undefined behaviour in C++) is
    marked explicitly as `err.nullDeref`.

Fallible member functions of a component with state `σ` are embedded as
`σ → Except err σ`: an `Except.error` result corresponds to a C++ throw, and
since the thrown paths in the source never mutate the receiver before
throwing, the caller's state is unchanged on error.
-/

namespace scandium

/-- SQLite result code `SQLITE_OK`. -/
def SQLITE_OK : Int := 0

/-- SQLite result code `SQLITE_ERROR` (generic failure). -/
def SQLITE_ERROR : Int := 1

/-- SQLite result code `SQLITE_RANGE` (bind index out of range). -/
def SQLITE_RANGE : Int := 25

/-- SQLite result code `SQLITE_ROW` (a step produced a row). -/
def SQLITE_ROW : Int := 100

/-- SQLite result code `SQLITE_DONE` (a step completed the statement). -/
def SQLITE_DONE : Int := 101

/-- The possible failure outcomes of a wrapper operation (see module header). -/
inductive err where
  | sqliteError (what : String) (rc : Int)
  | logicError (what : String)
  | callbackException
  | nullDeref
deriving DecidableEq

/-- Equality of `Except` results is decidable, so theorems about concrete
wrapper runs can be settled by evaluation. -/
instance {ε α : Type} [DecidableEq ε] [DecidableEq α] : DecidableEq (Except ε α) := fun x y =>
  match x, y with
  | .ok a, .ok b =>
    if h : a = b then .isTrue (by rw [h]) else .isFalse (fun hc => by cases hc; exact h rfl)
  | .error a, .error b =>
    if h : a = b then .isTrue (by rw [h]) else .isFalse (fun hc => by cases hc; exact h rfl)
  | .ok _, .error _ => .isFalse (fun hc => by cases hc)
  | .error _, .ok _ => .isFalse (fun hc => by cases hc)

/-- The SQLite transaction modes (`scandium::transaction_mode`). -/
inductive transaction_mode where
  | deferred
  | immediate
  | exclusive
deriving DecidableEq

/--
The SQL command texts that flow from the wrapper into the engine.  The
wrapper treats caller-supplied SQL as an opaque string (`other`); the finitely
many command texts the wrapper itself constructs (`BEGIN ...;`, `COMMIT;`,
`ROLLBACK;` in `sqlite_holder` and the `PRAGMA user_version = N;` text built
by `database::update_user_version` via a stringstream) are represented by
dedicated constructors so the engine contract can give them their meaning.
-/
inductive sql where
  | beginDeferred
  | beginImmediate
  | beginExclusive
  | commitTxn
  | rollbackTxn
  | pragmaSetUserVersion (v : Int)
  | other (text : String)
deriving DecidableEq

/--
Engine state behind one native `sqlite3 *` connection, restricted to what the
claims observe: the out-of-band `user_version` counter and whether a
transaction is open.  `txnSaved` is `some v` while a transaction is open,
where `v` is the value `user_version` had at `BEGIN` (SQLite stores
`user_version` in the database header, so a `ROLLBACK` restores it).
-/
structure native_conn where
  userVersion : Int
  txnSaved : Option Int
deriving DecidableEq

/--
Engine contract for executing one of the modelled SQL commands on an open
connection (the collaborator's `prepare`/`step`/`finalize` pipeline inside
`sqlite_holder::exec_sql`, collapsed to one result code).  `BEGIN` inside an
open transaction and `COMMIT`/`ROLLBACK` outside one fail with
`SQLITE_ERROR`; caller-supplied `other` SQL has no modelled effect.
-/
def native_conn.nexec : native_conn → sql → Int × native_conn
  | c, .beginDeferred | c, .beginImmediate | c, .beginExclusive =>
    match c.txnSaved with
    | some _ => (SQLITE_ERROR, c)
    | none => (SQLITE_OK, { c with txnSaved := some c.userVersion })
  | c, .commitTxn =>
    match c.txnSaved with
    | some _ => (SQLITE_OK, { c with txnSaved := none })
    | none => (SQLITE_ERROR, c)
  | c, .rollbackTxn =>
    match c.txnSaved with
    | some v => (SQLITE_OK, { userVersion := v, txnSaved := none })
    | none => (SQLITE_ERROR, c)
  | c, .pragmaSetUserVersion v => (SQLITE_OK, { c with userVersion := v })
  | c, .other _ => (SQLITE_OK, c)

/--
`scandium::sqlite_holder`: RAII wrapper for one `sqlite3 *`.  `db = none`
models `_db == nullptr` (closed).
-/
structure sqlite_holder where
  db : Option native_conn
deriving DecidableEq

/-- `sqlite_holder::is_closed`: `_db == nullptr` (scandium.h:718-720). -/
def sqlite_holder.is_closed (h : sqlite_holder) : Bool :=
  h.db.isNone

/--
`sqlite_holder::close` (scandium.h:705-716): early-returns when `_db` is
already null; otherwise calls `sqlite3_close_v2` (engine contract: succeeds)
and nulls `_db`.
-/
def sqlite_holder.close (h : sqlite_holder) : Except err sqlite_holder :=
  match h.db with
  | none => .ok h
  | some _ => .ok ⟨none⟩

/--
`sqlite_holder::handle` (scandium.h:767-772): throws `std::logic_error`
("database is closed") when `_db` is null.
-/
def sqlite_holder.handle (h : sqlite_holder) : Except err native_conn :=
  match h.db with
  | none => .error (.logicError "database is closed")
  | some c => .ok c

/--
`sqlite_holder::exec_sql` (scandium.h:722-738): prepares, steps and finalizes
the given SQL; a non-success engine result code becomes a `sqlite_error`
throw.  The engine side is `native_conn.nexec`.
-/
def sqlite_holder.exec_sql (h : sqlite_holder) (s : sql) : Except err sqlite_holder := do
  let c ← h.handle
  let (rc, c') := c.nexec s
  if rc = SQLITE_OK then .ok ⟨some c'⟩
  else .error (.sqliteError "Failed to step statement" rc)

/--
The literal SQL text chosen by the `switch` in
`sqlite_holder::begin_transaction` (scandium.h:740-757).
-/
def begin_sql_of : transaction_mode → sql
  | .deferred => .beginDeferred
  | .immediate => .beginImmediate
  | .exclusive => .beginExclusive

/-- `sqlite_holder::begin_transaction` (scandium.h:740-757). -/
def sqlite_holder.begin_transaction (h : sqlite_holder) (mode : transaction_mode) :
    Except err sqlite_holder :=
  h.exec_sql (begin_sql_of mode)

/-- `sqlite_holder::commit_transaction` (scandium.h:759-761). -/
def sqlite_holder.commit_transaction (h : sqlite_holder) : Except err sqlite_holder :=
  h.exec_sql .commitTxn

/-- `sqlite_holder::rollback_transaction` (scandium.h:763-765). -/
def sqlite_holder.rollback_transaction (h : sqlite_holder) : Except err sqlite_holder :=
  h.exec_sql .rollbackTxn

/--
`scandium::transaction`: the scoped RAII guard.  It shares the connection
holder, so its operations take and return the holder state explicitly.
-/
structure transaction where
  in_transaction : Bool
deriving DecidableEq

/--
The `transaction` constructor (scandium.h:1265-1271): issues `BEGIN` and, if
that did not throw, marks the guard active.
-/
def transaction.create (h : sqlite_holder) (mode : transaction_mode) :
    Except err (transaction × sqlite_holder) := do
  let h' ← h.begin_transaction mode
  .ok (⟨true⟩, h')

/--
`transaction::commit` (scandium.h:1260-1263): issues `COMMIT`; only when that
returns is `_in_transaction` cleared (so a throwing commit leaves the guard
active and the destructor will still roll back).
-/
def transaction.commit (t : transaction) (h : sqlite_holder) :
    Except err (transaction × sqlite_holder) := do
  let h' ← h.commit_transaction
  .ok (⟨false⟩, h')

/--
`transaction::~transaction` (scandium.h:1236-1244): if the guard is still
active and the connection is not closed, issues `ROLLBACK` and swallows any
error (`catch (...) {}`).  The return type is plain `sqlite_holder`, not
`Except`, mirroring the `noexcept` destructor: it can never propagate an
error of its own.
-/
def transaction.dtor (t : transaction) (h : sqlite_holder) : sqlite_holder :=
  if t.in_transaction ∧ ¬ h.is_closed then
    match h.rollback_transaction with
    | .ok h' => h'
    | .error _ => h
  else h

/--
A bindable SQLite value.  The claims under verification bind integers, text
and blobs; the `double` overload is omitted because no claim concerns
floating point.  `vblob` carries the bytes the (pointer, length) pair
describes.
-/
inductive sql_value where
  | vint (i : Int)
  | vint64 (i : Int)
  | vtext (s : String)
  | vblob (bytes : List Nat)
deriving DecidableEq

/-- The message of the `sqlite_error` thrown when binding this value fails. -/
def bind_fail_msg : sql_value → String
  | .vint _ => "Failed to bind int"
  | .vint64 _ => "Failed to bind int64"
  | .vtext _ => "Failed to bind text"
  | .vblob _ => "Failed to bind blob"

/--
Engine state behind one native `sqlite3_stmt *`, restricted to what the
claims observe: the compiled placeholder slots (in order; `some name` for a
named placeholder, `none` for a positional `?`), the currently bound
parameter values (most recent bind first; a lookup takes the first match,
matching SQLite's last-bind-wins retention), and a log of the binding sets
in effect at each completed step, newest first (so that an execution and the
values it saw are observable).
-/
structure native_stmt where
  params : List (Option String)
  bindings : List (Int × sql_value)
  execLog : List (List (Int × sql_value))
deriving DecidableEq

/--
Engine contract for `sqlite3_bind_*` at a 1-based index: out-of-range
indices fail with `SQLITE_RANGE` and leave the statement unchanged.
-/
def native_stmt.nbind (s : native_stmt) (index : Int) (v : sql_value) :
    Int × native_stmt :=
  if 1 ≤ index ∧ index ≤ (s.params.length : Int) then
    (SQLITE_OK, { s with bindings := (index, v) :: s.bindings })
  else
    (SQLITE_RANGE, s)

/-- Engine contract for `sqlite3_clear_bindings`: every slot becomes unbound. -/
def native_stmt.nclear (s : native_stmt) : Int × native_stmt :=
  (SQLITE_OK, { s with bindings := [] })

/--
Engine contract for `sqlite3_step` on a command (non-row-returning)
statement: the step completes with `SQLITE_DONE`, and the binding set it ran
with is recorded.
-/
def native_stmt.nstep (s : native_stmt) : Int × native_stmt :=
  (SQLITE_DONE, { s with execLog := s.bindings :: s.execLog })

/--
Engine contract for `sqlite3_bind_parameter_index`
(1-based scan; 0 when no placeholder has the name).
-/
def bind_parameter_index_from (i : Int) (name : String) :
    List (Option String) → Int
  | [] => 0
  | p :: rest => if p = some name then i else bind_parameter_index_from (i + 1) name rest

/-- `sqlite3_bind_parameter_index` on a compiled statement. -/
def native_stmt.bind_parameter_index (s : native_stmt) (name : String) : Int :=
  bind_parameter_index_from 1 name s.params

/--
`scandium::sqlite_stmt_holder`: RAII wrapper for one `sqlite3_stmt *`.
`stmt = none` models `_stmt == nullptr` (finalized).
-/
structure sqlite_stmt_holder where
  stmt : Option native_stmt
deriving DecidableEq

/--
`sqlite_stmt_holder::handle` (scandium.h:863-868): throws `std::logic_error`
("statement is finalized") when `_stmt` is null.
-/
def sqlite_stmt_holder.handle (h : sqlite_stmt_holder) : Except err native_stmt :=
  match h.stmt with
  | none => .error (.logicError "statement is finalized")
  | some s => .ok s

/--
`sqlite_stmt_holder::finalize` (scandium.h:785-791): calls
`sqlite3_finalize(_stmt)` (engine contract: returns `SQLITE_OK`, also for a
null pointer) and nulls `_stmt`.
-/
def sqlite_stmt_holder.finalize (h : sqlite_stmt_holder) : Except err sqlite_stmt_holder :=
  .ok ⟨none⟩

/--
`sqlite_stmt_holder::step` (scandium.h:797-802): steps the statement; a
result other than `SQLITE_ROW`/`SQLITE_DONE` becomes a `sqlite_error` throw.
-/
def sqlite_stmt_holder.step (h : sqlite_stmt_holder) : Except err sqlite_stmt_holder := do
  let s ← h.handle
  let (rc, s') := s.nstep
  if rc ≠ SQLITE_ROW ∧ rc ≠ SQLITE_DONE then
    .error (.sqliteError "Failed to step statement" rc)
  else
    .ok ⟨some s'⟩

/--
`sqlite_stmt_holder::bind_values` (scandium.h:804-861): the variadic
overload set collapsed to a list; each value is bound at the running 1-based
index, failing fast on the first non-success bind code.
-/
def sqlite_stmt_holder.bind_values (h : sqlite_stmt_holder) (index : Int) :
    List sql_value → Except err sqlite_stmt_holder
  | [] => .ok h
  | v :: rest => do
    let s ← h.handle
    let (rc, s') := s.nbind index v
    if rc ≠ SQLITE_OK then .error (.sqliteError (bind_fail_msg v) rc)
    else sqlite_stmt_holder.bind_values ⟨some s'⟩ (index + 1) rest

/--
`scandium::statement`: the public precompiled-statement object.  It shares
the statement holder; in these claims it is the only live owner, so the
holder is carried by value.
-/
structure statement where
  stmt_holder : sqlite_stmt_holder
deriving DecidableEq

/-- `statement::finalize` (scandium.h:883-885). -/
def statement.finalize (st : statement) : Except err statement := do
  let h ← st.stmt_holder.finalize
  .ok ⟨h⟩

/-- `statement::exec` (scandium.h:887-889): one step of the statement. -/
def statement.exec (st : statement) : Except err statement := do
  let h ← st.stmt_holder.step
  .ok ⟨h⟩

/-- `statement::bind_values` (scandium.h:910-913): binds from index 1. -/
def statement.bind_values (st : statement) (args : List sql_value) :
    Except err statement := do
  let h ← st.stmt_holder.bind_values 1 args
  .ok ⟨h⟩

/--
`statement::bind(int, ...)` (scandium.h:915-955): binds one value at a
1-based index; a non-success engine code becomes a `sqlite_error` throw.
-/
def statement.bind (st : statement) (index : Int) (v : sql_value) :
    Except err statement := do
  let s ← st.stmt_holder.handle
  let (rc, s') := s.nbind index v
  if rc ≠ SQLITE_OK then .error (.sqliteError (bind_fail_msg v) rc)
  else .ok ⟨⟨some s'⟩⟩

/--
`statement::bind(const std::string &, ...)` (scandium.h:957-1033): resolves
the parameter name with `sqlite3_bind_parameter_index`; when no placeholder
has the name (index 0) throws `std::logic_error` with the message
`No matching parameter named <name> is found` (in the C++ source the name is
wrapped in single quotes) without binding anything; otherwise delegates to
the positional `bind`.
-/
def statement.bind_named (st : statement) (parameter_name : String) (v : sql_value) :
    Except err statement := do
  let s ← st.stmt_holder.handle
  let index := s.bind_parameter_index parameter_name
  if index = 0 then
    .error (.logicError ("No matching parameter named " ++ parameter_name ++ " is found"))
  else
    st.bind index v

/-- `statement::clear_bindings` (scandium.h:1035-1040). -/
def statement.clear_bindings (st : statement) : Except err statement := do
  let s ← st.stmt_holder.handle
  let (rc, s') := s.nclear
  if rc ≠ SQLITE_OK then .error (.sqliteError "Failed to clear bindings" rc)
  else .ok ⟨⟨some s'⟩⟩

/--
`statement::exec_with_bindings` (scandium.h:891-897), exactly as written:
`clear_bindings(); bind_values(args...); exec(); finalize();` — note the
trailing `finalize()` call in the source.
-/
def statement.exec_with_bindings (st : statement) (args : List sql_value) :
    Except err statement := do
  let st ← st.clear_bindings
  let st ← st.bind_values args
  let st ← st.exec
  st.finalize

/-- `scandium::blob`: a (pointer, length) pair.  `data` holds the bytes the
pointer gives access to and `size` the declared length. -/
structure blob where
  data : List Nat
  size : Int
deriving DecidableEq

/--
Engine contract for `sqlite3_bind_blob(stmt, i, data, size, SQLITE_TRANSIENT)`
(used by `statement::bind(int, blob)`, scandium.h:950-955): the engine copies
exactly `size` bytes from `data` into the column value.
-/
def bind_blob_stored (b : blob) : List Nat :=
  b.data.take b.size.toNat

/--
Engine contract for `sqlite3_column_text` on a column holding the byte
sequence `stored`: the value converted to text is the same bytes followed by
a NUL terminator.
-/
def column_text_buffer (stored : List Nat) : List Nat :=
  stored ++ [0]

/-- `std::strlen`: the number of bytes before the first NUL in the buffer. -/
def strlen (buf : List Nat) : Nat :=
  (buf.takeWhile (fun b => b ≠ 0)).length

/--
`cursor::get<blob>` (scandium.h:1089-1095), exactly as written: the data
pointer is obtained from `sqlite3_column_text` and the size is computed as
`strlen(data) - 1`.  `bytes` is the view a consumer reading `size` bytes
from the returned pointer observes.  (When `strlen` is 0 the C++ `size_t`
subtraction wraps and the `int` cast yields -1 on the usual platforms, which
`Int.subNatNat` reproduces.)
-/
def cursor_get_blob (stored : List Nat) : blob :=
  let buf := column_text_buffer stored
  let n := strlen buf
  { data := buf.take (Int.subNatNat n 1).toNat, size := Int.subNatNat n 1 }

/--
`scandium::iterator` (scandium.h:406-442): shared-pointer back references to
the connection and statement holders (modelled by their identities, `none`
for an empty `std::shared_ptr`), plus `_row_index` and `_state`.  A
default-constructed iterator (scandium.h:1192-1194) has empty holders,
row index 0 and state -1.
-/
structure db_iterator where
  db_holder : Option Nat
  stmt_holder : Option Nat
  row_index : Nat
  state : Int
deriving DecidableEq

/-- `iterator::iterator()` (scandium.h:1192-1194): the "end" sentinel. -/
def db_iterator.default : db_iterator :=
  ⟨none, none, 0, -1⟩

/-- `result_set::end` (scandium.h:1224-1226): a default-constructed iterator. -/
def result_set_end : db_iterator :=
  db_iterator.default

/--
`iterator::operator==` (scandium.h:1173-1186): a `SQLITE_DONE` iterator and a
default (-1) iterator are equal in either order; otherwise the comparison is
fieldwise (shared-pointer identity for the two holders).
-/
def db_iterator.eq (a b : db_iterator) : Bool :=
  if a.state = SQLITE_DONE ∧ b.state = -1 then true
  else if a.state = -1 ∧ b.state = SQLITE_DONE then true
  else a.db_holder = b.db_holder ∧ a.stmt_holder = b.stmt_holder
    ∧ a.row_index = b.row_index ∧ a.state = b.state

/-- `iterator::operator!=` (scandium.h:1188-1190): `!operator==(other)`. -/
def db_iterator.ne (a b : db_iterator) : Bool :=
  ! a.eq b

/--
`iterator::operator++` (scandium.h:1154-1163): dereferences the statement
holder (undefined behaviour on the empty shared pointer of a default
iterator), steps the shared statement — `rc` is the engine's step result —
stores the result code in `_state` (throwing unless it is `SQLITE_ROW` or
`SQLITE_DONE`) and increments `_row_index`.
-/
def db_iterator.advance (it : db_iterator) (rc : Int) : Except err db_iterator :=
  match it.stmt_holder with
  | none => .error .nullDeref
  | some _ =>
    if rc ≠ SQLITE_ROW ∧ rc ≠ SQLITE_DONE then
      .error (.sqliteError "Failed to step statement" rc)
    else
      .ok { it with state := rc, row_index := it.row_index + 1 }

/--
The callbacks this analysis ranges over: a host
`before_upgrade_user_version` callback is modelled as the SQL commands it
issues through the database (in order), followed by an optional throw.  This
first-order description keeps the model executable while covering the
behaviours the claims exercise (callbacks that mutate the store and
callbacks that fail).
-/
structure callback where
  cmds : List sql
  throws : Bool
deriving DecidableEq

/--
`scandium::database` (scandium.h:535-680): the path, the shared connection
holder (`none` models the default-constructed, still-empty
`std::shared_ptr<sqlite_holder>`), and the optional
`_before_upgrade_user_version` callback.
-/
structure database where
  path : String
  db_holder : Option sqlite_holder
  before_upgrade_user_version : Option callback
deriving DecidableEq

/--
The native calls `database::open` can issue, for observing its side effects.
-/
inductive native_call where
  | openV2 (path : String)
  | closeConn
  | busyTimeout (ms : Int)
deriving DecidableEq

/--
`database::open` (scandium.h:1291-1299): calls
`sqlite3_open_v2(path, READWRITE | CREATE)` — `res` is the collaborator's
outcome, a fresh connection or a failure code — and on success wraps the
handle in a new `sqlite_holder`; on failure calls `sqlite3_close` and throws.
The list of native calls issued is returned alongside.
(`open` is a Lean keyword, hence the `open_db` spelling.)
-/
def database.open_db (d : database) (res : Except Int native_conn) :
    (Except err database) × List native_call :=
  match res with
  | .error rc =>
    (.error (.sqliteError "Failed to open database" rc), [.openV2 d.path, .closeConn])
  | .ok conn =>
    (.ok { d with db_holder := some ⟨some conn⟩ }, [.openV2 d.path])

/-- `database::is_open` (scandium.h:1354-1356), exactly as written:
`return _db_holder.get() == nullptr;`. -/
def database.is_open (d : database) : Bool :=
  d.db_holder.isNone

/--
`database::close` (scandium.h:1310-1312): `_db_holder->close()`; on a
never-opened database the shared pointer is empty and the dereference is
undefined behaviour (`err.nullDeref`).
-/
def database.close (d : database) : Except err database :=
  match d.db_holder with
  | none => .error .nullDeref
  | some h => do
    let h' ← h.close
    .ok { d with db_holder := some h' }

/-- `database::exec_sql` (scandium.h:1314-1316): `_db_holder->exec_sql(sql)`. -/
def database.exec_sql (d : database) (s : sql) : Except err database :=
  match d.db_holder with
  | none => .error .nullDeref
  | some h => do
    let h' ← h.exec_sql s
    .ok { d with db_holder := some h' }

/--
The private `statement` constructor (scandium.h:1042-1050): dereferences the
connection holder (`handle()` throws when closed; the dereference itself is
undefined behaviour on an empty shared pointer), then asks the engine to
prepare the SQL — `prep` is the collaborator's outcome: its result code and
the compiled statement — and wraps it in a fresh statement holder.
-/
def statement.construct (db_holder : Option sqlite_holder) (sqlText : String)
    (prep : Int × native_stmt) : Except err statement :=
  match db_holder with
  | none => .error .nullDeref
  | some h =>
    match h.db with
    | none => .error (.logicError "database is closed")
    | some _ =>
      if prep.1 = SQLITE_OK then .ok ⟨⟨some prep.2⟩⟩
      else .error (.sqliteError ("Failed to prepare statement, SQL = " ++ sqlText) prep.1)

/-- `database::prepare_statement` (scandium.h:1338-1340). -/
def database.prepare_statement (d : database) (sqlText : String)
    (prep : Int × native_stmt) : Except err statement :=
  statement.construct d.db_holder sqlText prep

/--
`scandium::result_set` (scandium.h:447-472): the shared statement holder a
query view ranges over (the connection holder reference is omitted here; no
claim observes it through the result set).
-/
structure result_set where
  stmt_holder : sqlite_stmt_holder
deriving DecidableEq

/--
`database::query` (scandium.h:1326-1329): constructs a statement and returns
`statement::query()`, a result-set view over its holder (no step yet).
-/
def database.query (d : database) (sqlText : String) (prep : Int × native_stmt) :
    Except err result_set := do
  let st ← d.prepare_statement sqlText prep
  .ok ⟨st.stmt_holder⟩

/-- `database::begin_transaction` (scandium.h:1342-1344). -/
def database.begin_transaction (d : database) (mode : transaction_mode) :
    Except err database :=
  match d.db_holder with
  | none => .error .nullDeref
  | some h => do
    let h' ← h.begin_transaction mode
    .ok { d with db_holder := some h' }

/--
`database::create_transaction` (scandium.h:1358-1360): the `transaction`
constructor dereferences the connection holder to issue `BEGIN`.
-/
def database.create_transaction (d : database) (mode : transaction_mode) :
    Except err (transaction × database) :=
  match d.db_holder with
  | none => .error .nullDeref
  | some h => do
    let (t, h') ← transaction.create h mode
    .ok (t, { d with db_holder := some h' })

/--
`database::get_user_version` (scandium.h:1362-1371): runs
`PRAGMA user_version;` through `query` and folds over the single resulting
row (engine contract: that query yields one row holding the counter).  On a
never-opened database the statement constructor dereferences the empty
shared pointer; on a closed one it throws `std::logic_error`.
-/
def database.get_user_version (d : database) : Except err Int :=
  match d.db_holder with
  | none => .error .nullDeref
  | some h =>
    match h.db with
    | none => .error (.logicError "database is closed")
    | some c => .ok c.userVersion

/--
Running the SQL commands a host callback issues through the open connection,
in order, stopping at the first failure (which, in C++, is an exception
escaping the callback).  The holder state reached is returned even on
failure, since the caller's shared state keeps the mutations already made.
-/
def run_callback_cmds : sqlite_holder → List sql → Option err × sqlite_holder
  | h, [] => (none, h)
  | h, c :: rest =>
    match h.exec_sql c with
    | .error e => (some e, h)
    | .ok h' => run_callback_cmds h' rest

/--
Invoking a host callback: run the SQL it issues, then, if it is a throwing
callback, raise the host exception.
-/
def invoke_callback (h : sqlite_holder) (cb : callback) : Option err × sqlite_holder :=
  match run_callback_cmds h cb.cmds with
  | (some e, h') => (some e, h')
  | (none, h') => if cb.throws then (some .callbackException, h') else (none, h')

/--
The outcome of `database::update_user_version`: the exception that escaped
(if any), the database state after the call unwinds, and the invocations of
`_before_upgrade_user_version` as `(old_version, new_version)` pairs.  The
state is reported even on the throwing paths because the destructor of the
scoped transaction runs during unwinding and its rollback is observable.
-/
structure upd_result where
  thrown : Option err
  db : database
  calls : List (Int × Int)
deriving DecidableEq

/--
The body of `database::update_user_version` from the point where the scoped
`transaction` guard is alive (scandium.h:1385-1393): invokes
`_before_upgrade_user_version` (if set) with `(old_version, version)` —
whatever the direction of the change — then writes
`PRAGMA user_version = version;` through `exec_sql` and commits.  If the
callback, the pragma write or the commit throws, the exception unwinds
through the guard's destructor, which rolls back and swallows any rollback
error (`transaction.dtor`); the guard is still active on each of those
paths because `transaction::commit` clears `_in_transaction` only after the
`COMMIT` call returns.
-/
def update_user_version_body (d : database) (old_version version : Int)
    (h1 : sqlite_holder) : upd_result :=
  let (cbErr, h2, calls) :=
    match d.before_upgrade_user_version with
    | none => (none, h1, [])
    | some cb =>
      let (e, h') := invoke_callback h1 cb
      (e, h', [(old_version, version)])
  match cbErr with
  | some e =>
    ⟨some e, { d with db_holder := some (transaction.dtor ⟨true⟩ h2) }, calls⟩
  | none =>
    match h2.exec_sql (.pragmaSetUserVersion version) with
    | .error e =>
      ⟨some e, { d with db_holder := some (transaction.dtor ⟨true⟩ h2) }, calls⟩
    | .ok h3 =>
      match h3.commit_transaction with
      | .error e =>
        ⟨some e, { d with db_holder := some (transaction.dtor ⟨true⟩ h3) }, calls⟩
      | .ok h4 => ⟨none, { d with db_holder := some h4 }, calls⟩

/--
`auto transaction = create_transaction(mode);` (scandium.h:1383): the guard's
constructor dereferences the connection holder and issues `BEGIN`; if that
throws, the guard never becomes active and nothing is rolled back.
Otherwise the transaction-scoped body runs.
-/
def update_user_version_go (d : database) (old_version version : Int)
    (mode : transaction_mode) : upd_result :=
  match d.db_holder with
  | none => ⟨some .nullDeref, d, []⟩
  | some h =>
    match h.begin_transaction mode with
    | .error e => ⟨some e, d, []⟩
    | .ok h1 => update_user_version_body d old_version version h1

/--
`database::update_user_version` (scandium.h:1373-1394): rejects
`version < 1` with `std::logic_error`; reads the current version (any throw
there propagates with nothing changed); no-ops when it already equals the
target; otherwise runs the transaction-wrapped update.
-/
def database.update_user_version (d : database) (version : Int)
    (mode : transaction_mode) : upd_result :=
  if version < 1 then ⟨some (.logicError "Invalid version, must be > 0"), d, []⟩
  else
    match d.get_user_version with
    | .error e => ⟨some e, d, []⟩
    | .ok old_version =>
      if old_version = version then ⟨none, d, []⟩
      else update_user_version_go d old_version version mode

/-! ## Theorems for the claims -/

/--
C1: the claim states that `exec_with_bindings(values...)` is exactly
`clear_bindings(); bind_values(values...); exec();` and leaves the statement
usable.  On the code it is not: scandium.h:896 additionally calls
`finalize()`, so after one `exec_with_bindings` the statement is finalized
and every further use — including the repeated `exec_with_bindings` calls in
the repository's own tests — throws `std::logic_error`, while the plain
three-step composition leaves the statement open.  Evaluated here on a fresh
one-placeholder statement.
-/
theorem C1_exec_with_bindings_finalizes :
    statement.exec_with_bindings ⟨⟨some ⟨[none], [], []⟩⟩⟩ [.vint 7] = .ok ⟨⟨none⟩⟩
    ∧ statement.exec ⟨⟨none⟩⟩ = .error (.logicError "statement is finalized")
    ∧ statement.exec_with_bindings ⟨⟨none⟩⟩ [.vint 7]
        = .error (.logicError "statement is finalized")
    ∧ (statement.clear_bindings ⟨⟨some ⟨[none], [], []⟩⟩⟩ >>= fun st =>
        statement.bind_values st [.vint 7] >>= statement.exec)
        = .ok ⟨⟨some ⟨[none], [(1, .vint 7)], [[(1, .vint 7)]]⟩⟩⟩ := by
  decide

/--
C2: the claim states that `is_open()` is true exactly when the native handle
is non-null.  The code (scandium.h:1355) returns `_db_holder.get() ==
nullptr`: on a freshly constructed, never-opened database it returns `true`,
and after a successful `open()` it returns `false` — the exact opposite of
the claim, of the header's own doc comment and of the repository's
`open_close` test.  (After `close()` the holder still exists, so both code
and claim give `false` there.)
-/
theorem C2_is_open_inverted :
    database.is_open ⟨":memory:", none, none⟩ = true
    ∧ database.open_db ⟨":memory:", none, none⟩ (.ok ⟨0, none⟩)
        = (.ok ⟨":memory:", some ⟨some ⟨0, none⟩⟩, none⟩, [.openV2 ":memory:"])
    ∧ database.is_open ⟨":memory:", some ⟨some ⟨0, none⟩⟩, none⟩ = false
    ∧ database.close ⟨":memory:", some ⟨some ⟨0, none⟩⟩, none⟩
        = .ok ⟨":memory:", some ⟨none⟩, none⟩
    ∧ database.is_open ⟨":memory:", some ⟨none⟩, none⟩ = false := by
  decide

/--
C3: the claim states that binding the 9-byte blob `{a,b,c,0,d,e,f,g,0}` and
decoding the stored column as a blob view returns all 9 bytes.  The bind
side stores the 9 bytes faithfully, but `cursor::get<blob>`
(scandium.h:1089-1095) reads the column with `sqlite3_column_text` and
computes the size as `strlen(data) - 1`, so the decoded view is the 2-byte
`{a,b}` with size 2 — truncated at the first embedded zero and further
shortened by one — contradicting the claim and the repository's own
`statement` test.
-/
theorem C3_blob_roundtrip_truncated :
    bind_blob_stored ⟨[97, 98, 99, 0, 100, 101, 102, 103, 0], 9⟩
      = [97, 98, 99, 0, 100, 101, 102, 103, 0]
    ∧ cursor_get_blob [97, 98, 99, 0, 100, 101, 102, 103, 0] = ⟨[97, 98], 2⟩
    ∧ (cursor_get_blob [97, 98, 99, 0, 100, 101, 102, 103, 0]).data
        ≠ [97, 98, 99, 0, 100, 101, 102, 103, 0]
    ∧ (cursor_get_blob [97, 98, 99, 0, 100, 101, 102, 103, 0]).size ≠ 9 := by
  decide

/--
C4: the claim states that `update_user_version` fires an upgrade callback
only when target > current and a downgrade callback only when target <
current.  This revision has a single `_before_upgrade_user_version` callback
and no downgrade callback at all, and scandium.h:1385-1387 invokes it
whenever the versions differ, in either direction: downgrading from 3 to 2
fires the before-upgrade callback with `(old = 3, new = 2)` — the wrong
direction — while the repository's own `user_version` test expects a
dedicated downgrade callback there.  The upgrade direction and the
equal-version no-op behave as claimed, as the second and third conjuncts
show.
-/
theorem C4_upgrade_callback_fires_on_downgrade :
    database.update_user_version ⟨"p", some ⟨some ⟨3, none⟩⟩, some ⟨[], false⟩⟩ 2 .deferred
      = ⟨none, ⟨"p", some ⟨some ⟨2, none⟩⟩, some ⟨[], false⟩⟩, [(3, 2)]⟩
    ∧ database.update_user_version ⟨"p", some ⟨some ⟨0, none⟩⟩, some ⟨[], false⟩⟩ 1 .deferred
      = ⟨none, ⟨"p", some ⟨some ⟨1, none⟩⟩, some ⟨[], false⟩⟩, [(0, 1)]⟩
    ∧ database.update_user_version ⟨"p", some ⟨some ⟨2, none⟩⟩, some ⟨[], false⟩⟩ 2 .deferred
      = ⟨none, ⟨"p", some ⟨some ⟨2, none⟩⟩, some ⟨[], false⟩⟩, []⟩ := by
  decide

/-- Whether a trace of native calls contains a `sqlite3_busy_timeout`
installation. -/
def installs_busy_timeout (trace : List native_call) : Bool :=
  trace.any fun c => match c with | .busyTimeout _ => true | _ => false

/--
C6 counterexample: a successful `database::open` (scandium.h:1291-1299)
issues only the native open call — its trace contains no busy-timeout
installation — so the claim that every successful open installs a
busy-retry policy fails already on an in-memory open.
-/
theorem C6_counterexample_no_busy_timeout :
    (database.open_db ⟨":memory:", none, none⟩ (.ok ⟨0, none⟩)).1
      = .ok ⟨":memory:", some ⟨some ⟨0, none⟩⟩, none⟩
    ∧ installs_busy_timeout (database.open_db ⟨":memory:", none, none⟩ (.ok ⟨0, none⟩)).2
      = false := by
  decide

/--
C6 amended: a successful `open()` issues exactly the one native
`sqlite3_open_v2` call and wraps the returned handle in a fresh holder; no
busy-retry policy (`sqlite3_busy_timeout`) is installed, so a transiently
locked store fails immediately at the engine's default rather than after a
bounded wait.
-/
theorem C6_open_installs_no_busy_timeout (d : database) (conn : native_conn) :
    d.open_db (.ok conn) = (.ok { d with db_holder := some ⟨some conn⟩ }, [.openV2 d.path])
    ∧ installs_busy_timeout [.openV2 d.path] = false :=
  ⟨rfl, rfl⟩

/--
C7: an iterator whose last step returned `SQLITE_DONE` (stepped past the
last row) compares equal to a default-constructed end iterator in both
argument orders, and `operator!=` is the exact logical negation of
`operator==` for every pair of iterators — confirming the claim.
-/
theorem C7_done_iterator_equals_end (i i' : db_iterator)
    (h : i.advance SQLITE_DONE = .ok i') :
    i'.eq result_set_end = true
    ∧ result_set_end.eq i' = true
    ∧ ∀ a b : db_iterator, a.ne b = ! a.eq b := by
  have hi : i' = { i with state := SQLITE_DONE, row_index := i.row_index + 1 } := by
    cases hs : i.stmt_holder with
    | none => rw [db_iterator.advance, hs] at h; cases h
    | some k =>
      rw [db_iterator.advance, hs] at h
      simp only [SQLITE_DONE, SQLITE_ROW, ne_eq] at h
      norm_num at h
      exact h.symm
  subst hi
  refine ⟨?_, ?_, fun a b => rfl⟩
  · simp [db_iterator.eq, result_set_end, db_iterator.default, SQLITE_DONE]
  · simp [db_iterator.eq, result_set_end, db_iterator.default, SQLITE_DONE]

/--
C7 witness: stepping a live iterator past the last row (engine returns
`SQLITE_DONE`) makes it equal to the end sentinel.
-/
theorem C7_witness :
    (db_iterator.mk (some 1) (some 1) 0 100).advance SQLITE_DONE
        = .ok (db_iterator.mk (some 1) (some 1) 1 101)
    ∧ ((db_iterator.mk (some 1) (some 1) 1 101).eq result_set_end = true
      ∧ result_set_end.eq (db_iterator.mk (some 1) (some 1) 1 101) = true
      ∧ ∀ a b : db_iterator, a.ne b = ! a.eq b) :=
  ⟨by decide, C7_done_iterator_equals_end (db_iterator.mk (some 1) (some 1) 0 100) _ (by decide)⟩

/--
A parameter name matching no placeholder makes the engine's index scan
return 0 wherever the scan starts.
-/
theorem bind_parameter_index_from_eq_zero (name : String) (ps : List (Option String)) :
    ∀ i : Int, some name ∉ ps → bind_parameter_index_from i name ps = 0 := by
  induction ps with
  | nil => intro i _; rfl
  | cons p rest ih =>
    intro i hmem
    have hp : ¬ (p = some name) := fun hp => hmem (hp ▸ List.mem_cons_self _ _)
    rw [bind_parameter_index_from, if_neg hp]
    exact ih (i + 1) (fun hr => hmem (List.mem_cons_of_mem _ hr))

/--
C8: binding by a parameter name that matches no placeholder in the compiled
statement fails with the "invalid state" `std::logic_error` — not with the
engine-failure `sqlite_error` kind that carries a native result code — and
binds nothing (the error is raised before any bind call, so the statement's
bind state is untouched) — confirming the claim.
-/
theorem C8_unknown_parameter_name (s : native_stmt) (name : String) (v : sql_value)
    (h : some name ∉ s.params) :
    statement.bind_named ⟨⟨some s⟩⟩ name v
      = .error (.logicError ("No matching parameter named " ++ name ++ " is found"))
    ∧ ∀ msg rc, statement.bind_named ⟨⟨some s⟩⟩ name v ≠ .error (.sqliteError msg rc) := by
  have hidx : s.bind_parameter_index name = 0 :=
    bind_parameter_index_from_eq_zero name s.params 1 h
  have h1 : statement.bind_named ⟨⟨some s⟩⟩ name v
      = .error (.logicError ("No matching parameter named " ++ name ++ " is found")) := by
    simp [statement.bind_named, sqlite_stmt_holder.handle, bind, Except.bind, hidx]
  refine ⟨h1, fun msg rc hc => ?_⟩
  rw [h1] at hc
  simp at hc

/--
C8 witness: a statement compiled with the single named placeholder `:id`
rejects a bind against `:missing` with the invalid-state error.
-/
theorem C8_witness :
    (some ":missing" ∉ ([some ":id"] : List (Option String)))
    ∧ (statement.bind_named ⟨⟨some ⟨[some ":id"], [], []⟩⟩⟩ ":missing" (.vint 1)
        = .error (.logicError ("No matching parameter named " ++ ":missing" ++ " is found"))
      ∧ ∀ msg rc, statement.bind_named ⟨⟨some ⟨[some ":id"], [], []⟩⟩⟩ ":missing" (.vint 1)
          ≠ .error (.sqliteError msg rc)) :=
  ⟨by decide, C8_unknown_parameter_name ⟨[some ":id"], [], []⟩ ":missing" (.vint 1) (by decide)⟩

/--
C9: `sqlite_holder::close` on a connection whose native handle has already
been closed takes the early-return branch (scandium.h:706-708): it does not
fail and leaves the holder unchanged, and `database::close` over such a
holder likewise succeeds without changing anything — confirming the claim
that close is idempotent.
-/
theorem C9_close_idempotent (h : sqlite_holder) (path : String) (cb : Option callback)
    (hc : h.db = none) :
    h.close = .ok h
    ∧ database.close ⟨path, some h, cb⟩ = .ok ⟨path, some h, cb⟩ := by
  have hh : h = ⟨none⟩ := by cases h; simp_all
  subst hh
  exact ⟨rfl, rfl⟩

/-- C9 witness: closing an already-closed holder is a no-op. -/
theorem C9_witness :
    ((⟨none⟩ : sqlite_holder).db = none)
    ∧ ((⟨none⟩ : sqlite_holder).close = .ok ⟨none⟩
      ∧ database.close ⟨"p", some ⟨none⟩, none⟩ = .ok ⟨"p", some ⟨none⟩, none⟩) :=
  ⟨rfl, C9_close_idempotent ⟨none⟩ "p" none rfl⟩

/--
C10: on a database on which `open()` has never succeeded the connection
holder shared pointer is still empty, and `close`, `exec_sql`, `query`,
`prepare_statement`, `begin_transaction` and `create_transaction` all
dereference it — undefined behaviour, marked `err.nullDeref` in this
embedding — rather than raising the invalid-state `std::logic_error` (or an
engine error) promised for using a closed connection — confirming the
claim that the null-holder branch is reachable at the public interface.
-/
theorem C10_null_holder_dereference (path : String) (cb : Option callback) (s : sql)
    (sqlText : String) (prep : Int × native_stmt) (mode : transaction_mode) :
    database.close ⟨path, none, cb⟩ = .error .nullDeref
    ∧ database.exec_sql ⟨path, none, cb⟩ s = .error .nullDeref
    ∧ database.query ⟨path, none, cb⟩ sqlText prep = .error .nullDeref
    ∧ database.prepare_statement ⟨path, none, cb⟩ sqlText prep = .error .nullDeref
    ∧ database.begin_transaction ⟨path, none, cb⟩ mode = .error .nullDeref
    ∧ database.create_transaction ⟨path, none, cb⟩ mode = .error .nullDeref
    ∧ (∀ msg, err.nullDeref ≠ err.logicError msg)
    ∧ (∀ msg rc, err.nullDeref ≠ err.sqliteError msg rc) := by
  refine ⟨rfl, rfl, rfl, rfl, rfl, rfl, ?_, ?_⟩ <;> intros <;> simp

/--
SQL issued by a host callback that contains no transaction-control command
leaves the transaction open and its `BEGIN`-time snapshot intact, whatever
else it does and whether or not it fails part-way.
-/
theorem run_callback_cmds_keeps_txn (cmds : List sql) :
    ∀ v v0 : Int, sql.commitTxn ∉ cmds → sql.rollbackTxn ∉ cmds →
      ∃ (e : Option err) (v' : Int),
        run_callback_cmds ⟨some ⟨v, some v0⟩⟩ cmds = (e, ⟨some ⟨v', some v0⟩⟩) := by
  induction cmds with
  | nil => intro v v0 _ _; exact ⟨none, v, rfl⟩
  | cons c rest ih =>
    intro v v0 hc hr
    have hc' : sql.commitTxn ∉ rest := fun hm => hc (List.mem_cons_of_mem _ hm)
    have hr' : sql.rollbackTxn ∉ rest := fun hm => hr (List.mem_cons_of_mem _ hm)
    cases c with
    | beginDeferred =>
      exact ⟨some (.sqliteError "Failed to step statement" SQLITE_ERROR), v, rfl⟩
    | beginImmediate =>
      exact ⟨some (.sqliteError "Failed to step statement" SQLITE_ERROR), v, rfl⟩
    | beginExclusive =>
      exact ⟨some (.sqliteError "Failed to step statement" SQLITE_ERROR), v, rfl⟩
    | commitTxn => exact absurd (List.mem_cons_self _ _) hc
    | rollbackTxn => exact absurd (List.mem_cons_self _ _) hr
    | pragmaSetUserVersion n =>
      obtain ⟨e, v', heq⟩ := ih n v0 hc' hr'
      exact ⟨e, v',
        (show run_callback_cmds ⟨some ⟨v, some v0⟩⟩ (sql.pragmaSetUserVersion n :: rest)
            = run_callback_cmds ⟨some ⟨n, some v0⟩⟩ rest from rfl).trans heq⟩
    | other t =>
      obtain ⟨e, v', heq⟩ := ih v v0 hc' hr'
      exact ⟨e, v',
        (show run_callback_cmds ⟨some ⟨v, some v0⟩⟩ (sql.other t :: rest)
            = run_callback_cmds ⟨some ⟨v, some v0⟩⟩ rest from rfl).trans heq⟩

/-- `BEGIN` in any mode on a connection with no open transaction succeeds and
snapshots the current user version. -/
theorem begin_transaction_snapshots (uv : Int) (mode : transaction_mode) :
    sqlite_holder.begin_transaction ⟨some ⟨uv, none⟩⟩ mode = .ok ⟨some ⟨uv, some uv⟩⟩ := by
  cases mode <;> rfl

/--
C5: when the registered callback fails (throws, or its own SQL fails) during
`update_user_version`, and the callback does not itself issue
transaction-control SQL, the update's exception escapes, the surrounding
transaction is never committed, and the unwinding transaction guard's
rollback restores the stored user version exactly — the database ends with
the original version and no open transaction.  The guard's destructor
(`transaction.dtor`) is total (it swallows any rollback error), so the
unwind propagates only the callback's own failure — confirming the claim.
The callback is still invoked exactly once, with `(old, new)`.
-/
theorem C5_callback_failure_rolls_back (conn : native_conn) (hT : conn.txnSaved = none)
    (version : Int) (hge : ¬ version < 1) (hne : conn.userVersion ≠ version)
    (mode : transaction_mode) (cmds : List sql)
    (hc : sql.commitTxn ∉ cmds) (hr : sql.rollbackTxn ∉ cmds) (path : String) :
    (database.update_user_version ⟨path, some ⟨some conn⟩, some ⟨cmds, true⟩⟩
        version mode).thrown.isSome = true
    ∧ (database.update_user_version ⟨path, some ⟨some conn⟩, some ⟨cmds, true⟩⟩
        version mode).db
      = ⟨path, some ⟨some ⟨conn.userVersion, none⟩⟩, some ⟨cmds, true⟩⟩
    ∧ (database.update_user_version ⟨path, some ⟨some conn⟩, some ⟨cmds, true⟩⟩
        version mode).calls
      = [(conn.userVersion, version)] := by
  obtain ⟨uv, ts⟩ := conn
  cases ts with
  | some w => exact absurd hT (by simp)
  | none =>
  obtain ⟨e, v', heq⟩ := run_callback_cmds_keeps_txn cmds uv uv hc hr
  have hbody : update_user_version_body
      ⟨path, some ⟨some ⟨uv, none⟩⟩, some ⟨cmds, true⟩⟩ uv version ⟨some ⟨uv, some uv⟩⟩
      = ⟨some (e.getD .callbackException),
         ⟨path, some ⟨some ⟨uv, none⟩⟩, some ⟨cmds, true⟩⟩,
         [(uv, version)]⟩ := by
    simp only [update_user_version_body, invoke_callback, heq]
    cases e with
    | none => rfl
    | some e0 => rfl
  have hfull : database.update_user_version
      ⟨path, some ⟨some ⟨uv, none⟩⟩, some ⟨cmds, true⟩⟩ version mode
      = ⟨some (e.getD .callbackException),
         ⟨path, some ⟨some ⟨uv, none⟩⟩, some ⟨cmds, true⟩⟩,
         [(uv, version)]⟩ := by
    have h0 : database.update_user_version
        ⟨path, some ⟨some ⟨uv, none⟩⟩, some ⟨cmds, true⟩⟩ version mode
        = if version < 1 then
            ⟨some (.logicError "Invalid version, must be > 0"),
             ⟨path, some ⟨some ⟨uv, none⟩⟩, some ⟨cmds, true⟩⟩, []⟩
          else if uv = version then
            ⟨none, ⟨path, some ⟨some ⟨uv, none⟩⟩, some ⟨cmds, true⟩⟩, []⟩
          else update_user_version_go
            ⟨path, some ⟨some ⟨uv, none⟩⟩, some ⟨cmds, true⟩⟩ uv version mode := rfl
    rw [h0, if_neg hge, if_neg hne]
    have h1 : update_user_version_go
        ⟨path, some ⟨some ⟨uv, none⟩⟩, some ⟨cmds, true⟩⟩ uv version mode
        = update_user_version_body
            ⟨path, some ⟨some ⟨uv, none⟩⟩, some ⟨cmds, true⟩⟩ uv version
            ⟨some ⟨uv, some uv⟩⟩ := by
      cases mode <;> rfl
    rw [h1, hbody]
  rw [hfull]
  exact ⟨rfl, rfl, rfl⟩

/--
C5 witness: a fresh store at version 0 and a throwing no-SQL callback —
`update_user_version 1` propagates the callback's failure and leaves the
version at 0 with no open transaction.
-/
theorem C5_witness :
    ((⟨0, none⟩ : native_conn).txnSaved = none ∧ ¬ (1 : Int) < 1
      ∧ (⟨0, none⟩ : native_conn).userVersion ≠ 1
      ∧ sql.commitTxn ∉ ([] : List sql) ∧ sql.rollbackTxn ∉ ([] : List sql))
    ∧ ((database.update_user_version ⟨"p", some ⟨some ⟨0, none⟩⟩, some ⟨[], true⟩⟩
          1 .deferred).thrown.isSome = true
      ∧ (database.update_user_version ⟨"p", some ⟨some ⟨0, none⟩⟩, some ⟨[], true⟩⟩
          1 .deferred).db
        = ⟨"p", some ⟨some ⟨(⟨0, none⟩ : native_conn).userVersion, none⟩⟩, some ⟨[], true⟩⟩
      ∧ (database.update_user_version ⟨"p", some ⟨some ⟨0, none⟩⟩, some ⟨[], true⟩⟩
          1 .deferred).calls
        = [((⟨0, none⟩ : native_conn).userVersion, 1)]) :=
  ⟨⟨rfl, by decide, by decide, by decide, by decide⟩,
   C5_callback_failure_rolls_back ⟨0, none⟩ rfl 1 (by decide) (by decide) .deferred []
     (by decide) (by decide) "p"⟩

end scandium
